import Mathlib

/-!
Verification of the environment-resolution policy of `src/src-tauri/src/lib.rs`.

The single function of substance, `get_environment`, snapshots the process
environment into a `HashMap<String, String>`, defaults `TERM`, `COLORTERM`
and `LANG` when absent, and, when `HOME` is present, prepends
`{HOME}/.local/bin:{HOME}/bin:` to `PATH` (the original `PATH` defaulting to
the empty string).

We embed the environment map as an association list `List (String × String)`
with first-match lookup; `insert` replaces the first binding of the key in
place or appends a fresh binding, and `orInsertWith` models Rust's
`entry(k).or_insert_with(v)` (insert only when the key is absent).  All
properties proved below are stated through `lookup`, so they are facts about
the map abstraction the Rust `HashMap` implements.
-/

namespace Harness

/-- An environment mapping: variable name to value, first binding wins. -/
abbrev Env := List (String × String)

/-- First-match lookup, the semantics of `HashMap::get`. -/
def lookup : Env → String → Option String
  | [], _ => none
  | (k, v) :: rest, key => if k = key then some v else lookup rest key

/-- `HashMap::contains_key`. -/
def containsKey (e : Env) (k : String) : Bool :=
  (lookup e k).isSome

/-- `HashMap::insert`: replace the first binding of `k` in place, or append. -/
def insert : Env → String → String → Env
  | [], k, v => [(k, v)]
  | (k', v') :: rest, k, v =>
      if k' = k then (k, v) :: rest else (k', v') :: insert rest k v

/-- `HashMap::entry(k).or_insert_with(|| v)`: insert only when `k` is absent. -/
def orInsertWith (e : Env) (k v : String) : Env :=
  if containsKey e k then e else insert e k v

/-- Lines 11-20 of `lib.rs`: default `TERM`, `COLORTERM` and `LANG` when
absent (`entry(..).or_insert_with` for the first two, an explicit
`contains_key` check and `insert` for `LANG`). -/
def withDefaults (env : Env) : Env :=
  let env := orInsertWith env "TERM" "xterm-256color"
  let env := orInsertWith env "COLORTERM" "truecolor"
  if containsKey env "LANG" then env else insert env "LANG" "en_US.UTF-8"

/-- Shallow embedding of `get_environment` (`src/src-tauri/src/lib.rs`,
lines 8-34), parameterised by the ambient environment snapshot that
`std::env::vars().collect()` produces: after defaulting the three
terminal-capability variables, if `HOME` is present the function rewrites
`PATH` to `user_paths.join(":") + ":" + current_path` where
`user_paths = [HOME + "/.local/bin", HOME + "/bin"]` and `current_path`
is the current `PATH` or the empty string. -/
def get_environment (env0 : Env) : Env :=
  let env := withDefaults env0
  match lookup env "HOME" with
  | some home =>
      let user_paths := [home ++ "/.local/bin", home ++ "/bin"]
      let current_path := (lookup env "PATH").getD ""
      let new_path := String.intercalate ":" user_paths ++ ":" ++ current_path
      insert env "PATH" new_path
  | none => env

/-! ### Basic lemmas about the map operations -/

theorem lookup_insert (e : Env) (k v k' : String) :
    lookup (insert e k v) k' = if k' = k then some v else lookup e k' := by
  induction e with
  | nil =>
      simp only [insert, lookup]
      by_cases h : k' = k
      · subst h
        simp
      · have h2 : ¬ k = k' := fun hh => h hh.symm
        simp [h, h2]
  | cons a rest ih =>
      obtain ⟨ka, va⟩ := a
      simp only [insert]
      by_cases hak : ka = k
      · subst hak
        simp only [if_pos rfl, lookup]
        by_cases h : k' = ka
        · subst h
          simp
        · have h2 : ¬ ka = k' := fun hh => h hh.symm
          simp [h, h2]
      · simp only [if_neg hak, lookup, ih]
        by_cases h : ka = k'
        · subst h
          simp [hak]
        · simp [h]

theorem lookup_orInsertWith (e : Env) (k v k' : String) :
    lookup (orInsertWith e k v) k' =
      if k' = k then some ((lookup e k).getD v) else lookup e k' := by
  unfold orInsertWith containsKey
  cases hk : lookup e k with
  | none =>
      simp [hk, lookup_insert]
  | some w =>
      by_cases h : k' = k
      · subst h
        simp [hk]
      · simp [hk, h]

theorem orInsertWith_of_containsKey (e : Env) (k v : String)
    (h : containsKey e k = true) : orInsertWith e k v = e := by
  unfold orInsertWith
  simp [h]

/-! ### String facts used to normalise the rewritten `PATH` value -/

theorem str_append_assoc (a b c : String) : a ++ b ++ c = a ++ (b ++ c) := by
  apply String.ext
  simp [String.data_append, List.append_assoc]

theorem str_append_empty (a : String) : a ++ "" = a := by
  apply String.ext
  simp [String.data_append]

/-- The `PATH` value the source computes,
`user_paths.join(":") + ":" + current_path`, written as plain left-to-right
concatenation. -/
theorem new_path_eq (h p : String) :
    String.intercalate ":" [h ++ "/.local/bin", h ++ "/bin"] ++ ":" ++ p
      = h ++ "/.local/bin:" ++ h ++ "/bin:" ++ p := by
  have hi : String.intercalate ":" [h ++ "/.local/bin", h ++ "/bin"]
      = h ++ "/.local/bin" ++ ":" ++ (h ++ "/bin") := rfl
  rw [hi]
  rw [str_append_assoc h "/.local/bin" ":"]
  rw [show ("/.local/bin" : String) ++ ":" = "/.local/bin:" from rfl]
  rw [str_append_assoc (h ++ "/.local/bin:") (h ++ "/bin") ":"]
  rw [str_append_assoc h "/bin" ":"]
  rw [show ("/bin" : String) ++ ":" = "/bin:" from rfl]
  rw [← str_append_assoc (h ++ "/.local/bin:") h "/bin:"]

/-! ### Stage lemmas: the defaulting pass and the `PATH` rewrite -/

/-- Proof-side abbreviation for the environment after the `TERM` and
`COLORTERM` defaults. -/
def envTC (e : Env) : Env :=
  orInsertWith (orInsertWith e "TERM" "xterm-256color") "COLORTERM" "truecolor"

theorem lookup_envTC (e : Env) (k : String) :
    lookup (envTC e) k =
      if k = "COLORTERM" then some ((lookup e "COLORTERM").getD "truecolor")
      else if k = "TERM" then some ((lookup e "TERM").getD "xterm-256color")
      else lookup e k := by
  unfold envTC
  simp only [lookup_orInsertWith]
  rw [if_neg (show ("COLORTERM" : String) ≠ "TERM" from by decide)]

theorem withDefaults_eq (e : Env) :
    withDefaults e =
      if (lookup e "LANG").isSome then envTC e
      else insert (envTC e) "LANG" "en_US.UTF-8" := by
  have hL : lookup (envTC e) "LANG" = lookup e "LANG" := by
    rw [lookup_envTC, if_neg (by decide), if_neg (by decide)]
  simp only [withDefaults, containsKey, envTC] at hL ⊢
  simp only [hL]

theorem lookup_withDefaults (e : Env) (k : String) :
    lookup (withDefaults e) k =
      if k = "LANG" then some ((lookup e "LANG").getD "en_US.UTF-8")
      else lookup (envTC e) k := by
  rw [withDefaults_eq]
  have hL : lookup (envTC e) "LANG" = lookup e "LANG" := by
    rw [lookup_envTC, if_neg (by decide), if_neg (by decide)]
  cases hs : lookup e "LANG" with
  | none =>
      rw [hs] at hL
      simp only [hs, Option.isSome_none, Bool.false_eq_true, if_false,
        lookup_insert]
      by_cases hk : k = "LANG"
      · simp [hk]
      · simp [hk]
  | some w =>
      rw [hs] at hL
      simp only [hs, Option.isSome_some, if_true]
      by_cases hk : k = "LANG"
      · subst hk
        simp [hL]
      · simp [hk]

theorem lookup_withDefaults_of_ne (e : Env) (k : String)
    (h1 : k ≠ "TERM") (h2 : k ≠ "COLORTERM") (h3 : k ≠ "LANG") :
    lookup (withDefaults e) k = lookup e k := by
  rw [lookup_withDefaults, if_neg h3, lookup_envTC, if_neg h2, if_neg h1]

theorem get_environment_of_home_none (e : Env)
    (hH : lookup e "HOME" = none) :
    get_environment e = withDefaults e := by
  have h : lookup (withDefaults e) "HOME" = none := by
    rw [lookup_withDefaults_of_ne e "HOME" (by decide) (by decide) (by decide),
      hH]
  simp only [get_environment, h]

theorem get_environment_of_home_some (e : Env) (home : String)
    (hH : lookup e "HOME" = some home) :
    get_environment e =
      insert (withDefaults e) "PATH"
        (String.intercalate ":" [home ++ "/.local/bin", home ++ "/bin"]
          ++ ":" ++ ((lookup e "PATH").getD "")) := by
  have h : lookup (withDefaults e) "HOME" = some home := by
    rw [lookup_withDefaults_of_ne e "HOME" (by decide) (by decide) (by decide),
      hH]
  have hP : lookup (withDefaults e) "PATH" = lookup e "PATH" := by
    rw [lookup_withDefaults_of_ne e "PATH" (by decide) (by decide) (by decide)]
  simp only [get_environment, h, hP]

theorem lookup_get_environment_of_ne_path (e : Env) (k : String)
    (hk : k ≠ "PATH") :
    lookup (get_environment e) k = lookup (withDefaults e) k := by
  cases hH : lookup e "HOME" with
  | none =>
      rw [get_environment_of_home_none e hH]
  | some home =>
      rw [get_environment_of_home_some e home hH, lookup_insert, if_neg hk]

theorem lookup_get_environment_path_some (e : Env) (home : String)
    (hH : lookup e "HOME" = some home) :
    lookup (get_environment e) "PATH" =
      some (home ++ "/.local/bin:" ++ home ++ "/bin:"
        ++ ((lookup e "PATH").getD "")) := by
  rw [get_environment_of_home_some e home hH, lookup_insert, if_pos rfl,
    new_path_eq]

theorem lookup_get_environment_path_none (e : Env)
    (hH : lookup e "HOME" = none) :
    lookup (get_environment e) "PATH" = lookup e "PATH" := by
  rw [get_environment_of_home_none e hH,
    lookup_withDefaults_of_ne e "PATH" (by decide) (by decide) (by decide)]

theorem lookup_get_environment_TERM (e : Env) :
    lookup (get_environment e) "TERM"
      = some ((lookup e "TERM").getD "xterm-256color") := by
  rw [lookup_get_environment_of_ne_path e "TERM" (by decide),
    lookup_withDefaults, if_neg (by decide), lookup_envTC, if_neg (by decide),
    if_pos rfl]

theorem lookup_get_environment_COLORTERM (e : Env) :
    lookup (get_environment e) "COLORTERM"
      = some ((lookup e "COLORTERM").getD "truecolor") := by
  rw [lookup_get_environment_of_ne_path e "COLORTERM" (by decide),
    lookup_withDefaults, if_neg (by decide), lookup_envTC, if_pos rfl]

theorem lookup_get_environment_LANG (e : Env) :
    lookup (get_environment e) "LANG"
      = some ((lookup e "LANG").getD "en_US.UTF-8") := by
  rw [lookup_get_environment_of_ne_path e "LANG" (by decide),
    lookup_withDefaults, if_pos rfl]

theorem lookup_get_environment_other (e : Env) (k : String)
    (h1 : k ≠ "TERM") (h2 : k ≠ "COLORTERM") (h3 : k ≠ "LANG")
    (h4 : k ≠ "PATH") :
    lookup (get_environment e) k = lookup e k :=
  (lookup_get_environment_of_ne_path e k h4).trans
    (lookup_withDefaults_of_ne e k h1 h2 h3)

theorem withDefaults_of_containsKey (x : Env)
    (h1 : containsKey x "TERM" = true) (h2 : containsKey x "COLORTERM" = true)
    (h3 : containsKey x "LANG" = true) : withDefaults x = x := by
  show (if containsKey
      (orInsertWith (orInsertWith x "TERM" "xterm-256color")
        "COLORTERM" "truecolor") "LANG" = true
    then orInsertWith (orInsertWith x "TERM" "xterm-256color")
      "COLORTERM" "truecolor"
    else insert (orInsertWith (orInsertWith x "TERM" "xterm-256color")
      "COLORTERM" "truecolor") "LANG" "en_US.UTF-8") = x
  rw [orInsertWith_of_containsKey x "TERM" "xterm-256color" h1,
    orInsertWith_of_containsKey x "COLORTERM" "truecolor" h2]
  simp [h3]

theorem containsKey_get_environment_TERM (e : Env) :
    containsKey (get_environment e) "TERM" = true := by
  unfold containsKey
  rw [lookup_get_environment_TERM]
  rfl

theorem containsKey_get_environment_COLORTERM (e : Env) :
    containsKey (get_environment e) "COLORTERM" = true := by
  unfold containsKey
  rw [lookup_get_environment_COLORTERM]
  rfl

theorem containsKey_get_environment_LANG (e : Env) :
    containsKey (get_environment e) "LANG" = true := by
  unfold containsKey
  rw [lookup_get_environment_LANG]
  rfl

/-! ### Claims -/

/-- Claim C1, counterexample: the claim asserts that for every ambient
environment the result maps `TERM` to a non-empty value, yet also that a
pre-existing `TERM` is preserved even when it is the empty string.  On the
input `[("TERM", "")]` the code preserves the empty value, so the
universally-quantified non-emptiness statement is false. -/
theorem C1_counterexample :
    ¬ ∀ (e : Env), ∃ v,
        lookup (get_environment e) "TERM" = some v ∧ v ≠ "" := by
  intro h
  obtain ⟨v, hv, hne⟩ := h [("TERM", "")]
  have hc : lookup (get_environment [("TERM", "")]) "TERM" = some "" := by
    decide
  rw [hc] at hv
  exact hne (Option.some.inj hv.symm)

/-- Claim C1 (amended): for every ambient environment `E`, the result of
`get_environment` contains the key `TERM`; the default `xterm-256color` is
inserted exactly when `TERM` is absent from `E`, and when `E` already
defines `TERM` that exact value (even the empty string) is preserved
unchanged — so the value is non-empty unless `E` itself binds `TERM` to the
empty string. -/
theorem C1_term_present_and_preserved (e : Env) :
    containsKey (get_environment e) "TERM" = true
    ∧ (lookup e "TERM" = none →
        lookup (get_environment e) "TERM" = some "xterm-256color")
    ∧ (∀ v, lookup e "TERM" = some v →
        lookup (get_environment e) "TERM" = some v) := by
  refine ⟨containsKey_get_environment_TERM e, ?_, ?_⟩
  · intro h
    rw [lookup_get_environment_TERM, h]
    rfl
  · intro v h
    rw [lookup_get_environment_TERM, h]
    rfl

theorem C1_witness :
    lookup (get_environment [("TERM", "vt100")]) "TERM" = some "vt100"
    ∧ lookup (get_environment ([] : Env)) "TERM" = some "xterm-256color" :=
  ⟨(C1_term_present_and_preserved [("TERM", "vt100")]).2.2 "vt100" rfl,
   (C1_term_present_and_preserved []).2.1 rfl⟩

/-- Claim C2: when `HOME = home` is present, the result maps `PATH` to
`home + "/.local/bin:" + home + "/bin:" + p`, where `p` is the original
`PATH` when present and the empty string otherwise. -/
theorem C2_path_rewrite (e : Env) (home : String)
    (hH : lookup e "HOME" = some home) :
    lookup (get_environment e) "PATH" =
      some (home ++ "/.local/bin:" ++ home ++ "/bin:"
        ++ ((lookup e "PATH").getD "")) :=
  lookup_get_environment_path_some e home hH

theorem C2_witness :
    lookup (get_environment [("HOME", "/home/u"), ("PATH", "/usr/bin")])
        "PATH"
      = some "/home/u/.local/bin:/home/u/bin:/usr/bin" :=
  (C2_path_rewrite [("HOME", "/home/u"), ("PATH", "/usr/bin")] "/home/u"
    rfl).trans (by decide)

/-- Claim C3: when `HOME = home` is present and `PATH` is absent, the result
maps `PATH` to `home + "/.local/bin:" + home + "/bin:"`, with the trailing
colon contributed by the empty original path. -/
theorem C3_path_rewrite_no_path (e : Env) (home : String)
    (hH : lookup e "HOME" = some home) (hP : lookup e "PATH" = none) :
    lookup (get_environment e) "PATH" =
      some (home ++ "/.local/bin:" ++ home ++ "/bin:") := by
  rw [lookup_get_environment_path_some e home hH, hP]
  simp only [Option.getD_none, str_append_empty]

theorem C3_witness :
    lookup (get_environment [("HOME", "/home/u")]) "PATH"
      = some "/home/u/.local/bin:/home/u/bin:" :=
  (C3_path_rewrite_no_path [("HOME", "/home/u")] "/home/u" rfl rfl).trans
    (by decide)

/-- Claim C4: when `HOME` is absent, `PATH` is left untouched — present with
its original value when the input has it, absent otherwise. -/
theorem C4_no_home_path_untouched (e : Env)
    (hH : lookup e "HOME" = none) :
    lookup (get_environment e) "PATH" = lookup e "PATH" :=
  lookup_get_environment_path_none e hH

theorem C4_witness :
    lookup (get_environment [("PATH", "/usr/bin")]) "PATH" = some "/usr/bin"
    ∧ lookup (get_environment ([] : Env)) "PATH" = none :=
  ⟨(C4_no_home_path_untouched [("PATH", "/usr/bin")] rfl).trans rfl,
   (C4_no_home_path_untouched [] rfl).trans rfl⟩

/-- Claim C5: the result always contains the key `COLORTERM`; a pre-existing
value is preserved exactly, and the default `truecolor` is inserted exactly
when `COLORTERM` is absent from the input. -/
theorem C5_colorterm_present_and_preserved (e : Env) :
    containsKey (get_environment e) "COLORTERM" = true
    ∧ (lookup e "COLORTERM" = none →
        lookup (get_environment e) "COLORTERM" = some "truecolor")
    ∧ (∀ v, lookup e "COLORTERM" = some v →
        lookup (get_environment e) "COLORTERM" = some v) := by
  refine ⟨containsKey_get_environment_COLORTERM e, ?_, ?_⟩
  · intro h
    rw [lookup_get_environment_COLORTERM, h]
    rfl
  · intro v h
    rw [lookup_get_environment_COLORTERM, h]
    rfl

theorem C5_witness :
    lookup (get_environment [("COLORTERM", "24bit")]) "COLORTERM"
        = some "24bit"
    ∧ lookup (get_environment ([] : Env)) "COLORTERM" = some "truecolor" :=
  ⟨(C5_colorterm_present_and_preserved [("COLORTERM", "24bit")]).2.2
      "24bit" rfl,
   (C5_colorterm_present_and_preserved []).2.1 rfl⟩

/-- Claim C6: the result always contains the key `LANG`; a pre-existing
value is preserved exactly, and the default `en_US.UTF-8` is inserted
exactly when `LANG` is absent from the input. -/
theorem C6_lang_present_and_preserved (e : Env) :
    containsKey (get_environment e) "LANG" = true
    ∧ (lookup e "LANG" = none →
        lookup (get_environment e) "LANG" = some "en_US.UTF-8")
    ∧ (∀ v, lookup e "LANG" = some v →
        lookup (get_environment e) "LANG" = some v) := by
  refine ⟨containsKey_get_environment_LANG e, ?_, ?_⟩
  · intro h
    rw [lookup_get_environment_LANG, h]
    rfl
  · intro v h
    rw [lookup_get_environment_LANG, h]
    rfl

theorem C6_witness :
    lookup (get_environment [("LANG", "C.UTF-8")]) "LANG" = some "C.UTF-8"
    ∧ lookup (get_environment ([] : Env)) "LANG" = some "en_US.UTF-8" :=
  ⟨(C6_lang_present_and_preserved [("LANG", "C.UTF-8")]).2.2 "C.UTF-8" rfl,
   (C6_lang_present_and_preserved []).2.1 rfl⟩

/-- Claim C7: every key bound in the input keeps its exact value in the
output unless it is `PATH` overwritten by the `HOME`-based rewrite; in
particular keys outside `{TERM, COLORTERM, LANG, PATH}` always pass through,
and `TERM`, `COLORTERM`, `LANG` are only ever added, never changed. -/
theorem C7_preexisting_preserved (e : Env) (k v : String)
    (hv : lookup e k = some v)
    (hframe : k ≠ "PATH" ∨ lookup e "HOME" = none) :
    lookup (get_environment e) k = some v := by
  by_cases hp : k = "PATH"
  · subst hp
    have hH : lookup e "HOME" = none := hframe.resolve_left (fun h => h rfl)
    rw [lookup_get_environment_path_none e hH, hv]
  · by_cases h1 : k = "TERM"
    · subst h1
      rw [lookup_get_environment_TERM, hv]
      rfl
    · by_cases h2 : k = "COLORTERM"
      · subst h2
        rw [lookup_get_environment_COLORTERM, hv]
        rfl
      · by_cases h3 : k = "LANG"
        · subst h3
          rw [lookup_get_environment_LANG, hv]
          rfl
        · rw [lookup_get_environment_other e k h1 h2 h3 hp, hv]

theorem C7_witness :
    lookup (get_environment [("SHELL", "/bin/zsh"), ("HOME", "/home/u")])
        "SHELL"
      = some "/bin/zsh"
    ∧ lookup (get_environment [("PATH", "/usr/bin")]) "PATH"
      = some "/usr/bin" :=
  ⟨C7_preexisting_preserved [("SHELL", "/bin/zsh"), ("HOME", "/home/u")]
      "SHELL" "/bin/zsh" rfl (Or.inl (by decide)),
   C7_preexisting_preserved [("PATH", "/usr/bin")] "PATH" "/usr/bin" rfl
      (Or.inr rfl)⟩

/-- Claim C8: `get_environment` is total — on every input environment it
returns a mapping (here: the Lean embedding is a total function, exhibited
by the result it returns), and that result always carries the three
terminal-capability keys. -/
theorem C8_total (e : Env) :
    ∃ r, get_environment e = r
      ∧ containsKey r "TERM" = true
      ∧ containsKey r "COLORTERM" = true
      ∧ containsKey r "LANG" = true :=
  ⟨get_environment e, rfl, containsKey_get_environment_TERM e,
    containsKey_get_environment_COLORTERM e,
    containsKey_get_environment_LANG e⟩

/-- Claim C9: resolution is non-idempotent exactly on the `PATH` rule.
Applying `get_environment` to its own output changes no key other than
`PATH`; when `HOME` is present the double application prepends the segments
`{HOME}/.local/bin:{HOME}/bin:` a second time in front of the
single-application `PATH`; when `HOME` is absent the double application is
the identity on the single application. -/
theorem C9_non_idempotent_only_on_path (e : Env) :
    (∀ k, k ≠ "PATH" →
        lookup (get_environment (get_environment e)) k
          = lookup (get_environment e) k)
    ∧ (∀ home p, lookup e "HOME" = some home →
        lookup (get_environment e) "PATH" = some p →
        lookup (get_environment (get_environment e)) "PATH"
          = some (home ++ "/.local/bin:" ++ home ++ "/bin:" ++ p))
    ∧ (lookup e "HOME" = none →
        get_environment (get_environment e) = get_environment e) := by
  have hWD : withDefaults (get_environment e) = get_environment e :=
    withDefaults_of_containsKey _ (containsKey_get_environment_TERM e)
      (containsKey_get_environment_COLORTERM e)
      (containsKey_get_environment_LANG e)
  have hHOME : lookup (get_environment e) "HOME" = lookup e "HOME" :=
    lookup_get_environment_other e "HOME" (by decide) (by decide)
      (by decide) (by decide)
  refine ⟨?_, ?_, ?_⟩
  · intro k hk
    rw [lookup_get_environment_of_ne_path (get_environment e) k hk, hWD]
  · intro home p hH hp
    have hH2 : lookup (get_environment e) "HOME" = some home := by
      rw [hHOME, hH]
    rw [lookup_get_environment_path_some (get_environment e) home hH2, hp]
    rfl
  · intro hH
    have hH2 : lookup (get_environment e) "HOME" = none := by
      rw [hHOME, hH]
    rw [get_environment_of_home_none (get_environment e) hH2, hWD]

theorem C9_witness :
    lookup (get_environment (get_environment [("HOME", "/h")])) "PATH"
      = some "/h/.local/bin:/h/bin:/h/.local/bin:/h/bin:"
    ∧ get_environment (get_environment [("PATH", "/usr/bin")])
      = get_environment [("PATH", "/usr/bin")]
    ∧ lookup (get_environment (get_environment [("HOME", "/h")])) "TERM"
      = lookup (get_environment [("HOME", "/h")]) "TERM" :=
  ⟨((C9_non_idempotent_only_on_path [("HOME", "/h")]).2.1 "/h"
      "/h/.local/bin:/h/bin:" rfl (by decide)).trans (by decide),
   (C9_non_idempotent_only_on_path [("PATH", "/usr/bin")]).2.2 rfl,
   (C9_non_idempotent_only_on_path [("HOME", "/h")]).1 "TERM" (by decide)⟩

/-- Claim C10: `get_environment` never removes a key.  A key is present in
the result exactly when it is present in the input, or is one of `TERM`,
`COLORTERM`, `LANG`, or is `PATH` while `HOME` is present in the input. -/
theorem C10_key_set (e : Env) (k : String) :
    containsKey (get_environment e) k = true ↔
      (containsKey e k = true ∨ k = "TERM" ∨ k = "COLORTERM" ∨ k = "LANG"
        ∨ (k = "PATH" ∧ containsKey e "HOME" = true)) := by
  by_cases h1 : k = "TERM"
  · subst h1
    simp [containsKey_get_environment_TERM e]
  · by_cases h2 : k = "COLORTERM"
    · subst h2
      simp [containsKey_get_environment_COLORTERM e]
    · by_cases h3 : k = "LANG"
      · subst h3
        simp [containsKey_get_environment_LANG e]
      · by_cases h4 : k = "PATH"
        · subst h4
          cases hH : lookup e "HOME" with
          | some home =>
              have hck : containsKey e "HOME" = true := by
                unfold containsKey
                rw [hH]
                rfl
              have hgp : containsKey (get_environment e) "PATH" = true := by
                unfold containsKey
                rw [lookup_get_environment_path_some e home hH]
                rfl
              simp [hgp, hck]
          | none =>
              have hck : containsKey e "HOME" = false := by
                unfold containsKey
                rw [hH]
                rfl
              have hPP : containsKey (get_environment e) "PATH"
                  = containsKey e "PATH" := by
                unfold containsKey
                rw [lookup_get_environment_path_none e hH]
              rw [hPP]
              simp [h1, h2, h3, hck]
        · have hother : containsKey (get_environment e) k
              = containsKey e k := by
            unfold containsKey
            rw [lookup_get_environment_other e k h1 h2 h3 h4]
          rw [hother]
          simp [h1, h2, h3, h4]

end Harness
